import Mathlib

/-!
Verification development for the notify-core notification dispatch engine.

The definitions below are a shallow embedding of the TypeScript sources:
`src/types.ts` (data model), the `ConsoleTransportAdapter` (preference gate
`canSend`), and the `NotificationCenter` class (`buildNotification`, `send`,
`sendNow`, `retryFailed`, `delete`, and the middleware chains). Effectful
collaborator calls (storage, queue, transports, subscriber callbacks) are
modelled by an explicit environment of behaviour functions, and each
operation returns the ordered trace of collaborator calls it performed
together with its result. JavaScript `Date` values are modelled as
millisecond counts (`Nat`), possibly-`undefined` values as `Option`, and a
thrown exception as `Except.error` carrying the message string. JavaScript
string truthiness (the empty string is falsy in `x || y`) is modelled
explicitly by `jsOrOpt`.
-/

deriving instance DecidableEq for Except

namespace NotifyCore

/-- ChannelType from src/types.ts: the five delivery channel identifiers. -/
inductive ChannelType where
  | inapp
  | push
  | email
  | sms
  | webhook
deriving DecidableEq, Repr

/-- NotificationStatus from src/types.ts. -/
inductive NotificationStatus where
  | pending
  | sent
  | delivered
  | failed
  | read
deriving DecidableEq, Repr

/-- DeliveryStatus from src/types.ts (per-receipt status). -/
inductive DeliveryStatus where
  | pending
  | sent
  | delivered
  | failed
  | bounced
deriving DecidableEq, Repr

/-- NotificationPriority from src/types.ts. -/
inductive NotificationPriority where
  | low
  | normal
  | high
  | urgent
deriving DecidableEq, Repr

/-- ChannelFrequency from src/types.ts. -/
inductive ChannelFrequency where
  | realtime
  | batched
  | digest
deriving DecidableEq, Repr

/-- A JavaScript `Record<string, unknown>` payload, modelled as an optional
association list of string-valued entries (`none` = the field is absent). -/
abbrev JsData : Type := Option (List (String × String))

/-- NotificationAction from src/types.ts. -/
structure NotificationAction where
  id : String
  label : String
  url : Option String
  handler : Option String
deriving DecidableEq, Repr

/-- Notification from src/types.ts. `type`, `title` and `body` are declared
`string` in the interface but may be `undefined` at runtime when the caller
relies on a template, so they are modelled as `Option String`. -/
structure Notification where
  id : String
  type : Option String
  title : Option String
  body : Option String
  data : JsData
  userId : String
  groupId : Option String
  priority : NotificationPriority
  category : Option String
  status : NotificationStatus
  readAt : Option Nat
  createdAt : Nat
  scheduledFor : Option Nat
  expiresAt : Option Nat
  channels : List ChannelType
  actions : Option (List NotificationAction)
deriving DecidableEq, Repr

/-- NotificationInput from src/types.ts. -/
structure NotificationInput where
  type : Option String
  title : Option String
  body : Option String
  userId : String
  groupId : Option String
  data : JsData
  priority : Option NotificationPriority
  category : Option String
  channels : List ChannelType
  scheduledFor : Option Nat
  expiresAt : Option Nat
  actions : Option (List NotificationAction)
  template : Option String
deriving DecidableEq, Repr

/-- QuietHours from src/types.ts; `start`/`end` are "HH:MM" strings. -/
structure QuietHours where
  start : String
  «end» : String
  timezone : Option String
deriving DecidableEq, Repr

/-- ChannelPreferences from src/types.ts. -/
structure ChannelPreferences where
  enabled : Bool
  categories : Option (List String)
  quietHours : Option QuietHours
  frequency : Option ChannelFrequency
deriving DecidableEq, Repr

/-- NotificationPreferences from src/types.ts. The per-channel map is an
association list; `globalMute?: boolean` is modelled as `Bool` since its
only use is a truthiness test where `undefined` and `false` coincide. -/
structure NotificationPreferences where
  userId : String
  channels : List (ChannelType × ChannelPreferences)
  globalMute : Bool
  updatedAt : Option Nat
  data : JsData
deriving DecidableEq, Repr

/-- DeliveryReceipt from src/types.ts. -/
structure DeliveryReceipt where
  notificationId : String
  channel : ChannelType
  status : DeliveryStatus
  attempts : Nat
  lastAttempt : Nat
  nextRetry : Option Nat
  error : Option String
  metadata : Option (List (String × String))
deriving DecidableEq, Repr

/-- A template default `title`/`body`: either a literal string or a pure
function of the caller's `data` (src/types.ts `string | ((data) => string)`). -/
inductive TemplateField where
  | lit (s : String)
  | fn (f : JsData → String)

/-- The `defaults` record of NotificationTemplate from src/types.ts. -/
structure TemplateDefaults where
  title : TemplateField
  body : TemplateField
  channels : List ChannelType
  priority : NotificationPriority
  category : Option String
  expiresIn : Option Nat

/-- NotificationTemplate from src/types.ts. -/
structure NotificationTemplate where
  id : String
  type : String
  defaults : TemplateDefaults

/-- Resolve a template field against the caller's data, as in
`typeof defaults.title === 'function' ? defaults.title(input.data) : defaults.title`. -/
def resolveField : TemplateField → JsData → String
  | .lit s, _ => s
  | .fn f, d => f d

/-- JavaScript `a || b` on possibly-undefined strings: `undefined` and the
empty string are falsy, so both fall through to `b`. -/
def jsOrOpt (a : Option String) (b : Option String) : Option String :=
  match a with
  | some s => if s = "" then b else some s
  | none => b

-- ===========================================================================
-- Preference gate: ConsoleTransportAdapter.canSend
-- ===========================================================================

/-- The characters of `s.split(':')[0]`: everything before the first
colon (the whole string when no colon occurs). -/
def charsBeforeColon : List Char → List Char
  | [] => []
  | c :: rest => if c = ':' then [] else c :: charsBeforeColon rest

/-- JS `Number(...)` on a candidate hour segment: a non-empty all-digit
string evaluates to its decimal value, anything else (for the inputs of
interest) to `NaN`, modelled as `none`. -/
def digitsVal (cs : List Char) : Option Nat :=
  if cs.isEmpty then none
  else if cs.all Char.isDigit then
    some (cs.foldl (fun a c => a * 10 + (c.toNat - 48)) 0)
  else none

/-- The hour component of a "HH:MM" string, as computed by
`Number(s.split(':')[0])`; `none` models `NaN`. -/
def hourOf (s : String) : Option Nat :=
  digitsVal (charsBeforeColon s.data)

/-- The quiet-hours window test from ConsoleTransportAdapter.canSend: with
both hours parsed, an overnight window (start > end) matches when the
current hour is ≥ start or < end, a same-day window when it is in
[start, end). A `NaN` hour makes every JS comparison false, so no match. -/
def inQuietHours (currentHour : Nat) (qh : QuietHours) : Bool :=
  match hourOf qh.start, hourOf qh.«end» with
  | some startHour, some endHour =>
    if startHour > endHour then
      currentHour ≥ startHour || currentHour < endHour
    else
      currentHour ≥ startHour && currentHour < endHour
  | _, _ => false

/-- ConsoleTransportAdapter.canSend from the source: deny on global mute,
on a disabled channel preference, on a present allow-list that the
notification's (truthy) category is not in, and inside quiet hours.
`name` is the adapter's channel name, `currentHour` models
`new Date().getHours()`. -/
def canSend (name : ChannelType) (currentHour : Nat)
    (notification : Notification) (preferences : NotificationPreferences) : Bool :=
  if preferences.globalMute then false
  else
    let channelPref := preferences.channels.lookup name
    if (match channelPref with
        | some cp => !cp.enabled
        | none => false) then false
    else if (match channelPref with
        | some cp =>
          match cp.categories, notification.category with
          | some cats, some cat => decide (cat ≠ "") && !(cats.contains cat)
          | _, _ => false
        | none => false) then false
    else if (match channelPref with
        | some cp =>
          match cp.quietHours with
          | some qh => inQuietHours currentHour qh
          | none => false
        | none => false) then false
    else true

-- ===========================================================================
-- NotificationCenter: environment, events, middleware chains
-- ===========================================================================

/-- Outcome of one `beforeSend` hook invocation: a (possibly transformed)
notification, a falsy return (filtering the notification out), or a thrown
exception carrying its message. -/
inductive HookResult where
  | ok (n : Notification)
  | filtered
  | threw (e : String)
deriving DecidableEq, Repr

/-- NotificationMiddleware from src/types.ts: a named set of optional
hooks. `afterSend`/`onError` return `none` on normal completion and
`some e` when the hook throws `e`. -/
structure NotificationMiddleware where
  name : String
  beforeSend : Option (Notification → HookResult)
  afterSend : Option (Notification → Option String)
  onError : Option (String → Notification → Option String)

/-- A channel transport as the NotificationCenter sees it: `send` either
returns a receipt or throws. -/
structure TransportAdapter where
  name : ChannelType
  send : Notification → NotificationPreferences → Except String DeliveryReceipt
  canSend : Notification → NotificationPreferences → Bool

/-- One collaborator call observed during an engine operation, in the order
the TypeScript code awaits them. -/
inductive Event where
  | beforeSendRan (name : String)
  | afterSendRan (name : String)
  | onErrorRan (name : String)
  | saveCalled (n : Notification)
  | enqueueCalled (n : Notification)
  | enqueueDelayedCalled (n : Notification) (delay : Int)
  | transportSendCalled (channel : ChannelType) (n : Notification)
  | saveReceiptCalled (r : DeliveryReceipt)
  | subscriberCbFired (userId : String) (cb : Nat) (n : Notification)
  | eventCbFired (userId : String) (cb : Nat) (eventType : String) (n : Notification)
  | unreadCbFired (userId : String) (cb : Nat) (count : Nat)
  | storageDeleteCalled (id : String)
deriving DecidableEq, Repr

/-- The engine's collaborators and state, as one environment: the template
registry, middleware list, transport map and queue presence from the
NotificationCenter's fields; behaviour functions for the storage and queue
calls (`none` = the call succeeds, `some e` = it throws `e`); the id and
clock draws for the current operation; and the subscriber registries as
per-user lists of callback identities. -/
structure Env where
  templates : List (String × NotificationTemplate)
  middleware : List NotificationMiddleware
  transports : List TransportAdapter
  hasQueue : Bool
  newId : String
  now : Nat
  prefsOf : String → NotificationPreferences
  saveResult : Notification → Option String
  enqueueResult : Notification → Option String
  enqueueDelayedResult : Notification → Int → Option String
  hasSaveReceipt : Bool
  hasGetReceipts : Bool
  receiptsOf : String → List DeliveryReceipt
  findById : String → Option Notification
  countUnreadAfter : String → Nat
  subscribers : String → List Nat
  eventSubscribers : String → List Nat
  unreadSubscribers : String → List Nat

/-- Template registry lookup (`this.templates.get(id)`). -/
def lookupTemplate (templates : List (String × NotificationTemplate))
    (id : String) : Option NotificationTemplate :=
  templates.lookup id

/-- Transport map lookup (`this.transports.get(channel)`); the map was
filled with `set`, so a later registration for the same name wins. -/
def lookupTransport (transports : List TransportAdapter)
    (channel : ChannelType) : Option TransportAdapter :=
  transports.reverse.find? (fun t => t.name == channel)

/-- generateId from the source builds
`notif_` + `Date.now()` + `_` + a random base-36 suffix; the decimal
rendering of the timestamp and the random suffix are the two draws. -/
def generateId (timeStr : String) (rand : String) : String :=
  "notif_" ++ timeStr ++ "_" ++ rand

/-- buildNotification without a template: the direct field mapping, with
`priority: input.priority || 'normal'`. -/
def buildDirect (newId : String) (now : Nat) (input : NotificationInput) : Notification :=
  { id := newId
    type := input.type
    title := input.title
    body := input.body
    data := input.data
    userId := input.userId
    groupId := input.groupId
    priority := input.priority.getD .normal
    category := input.category
    status := .pending
    readAt := none
    createdAt := now
    scheduledFor := input.scheduledFor
    expiresAt := input.expiresAt
    channels := input.channels
    actions := input.actions }

/-- buildNotification from the source: when `input.template` is truthy,
look the template up (throwing "Template ... not found" when absent) and
merge its resolved defaults under the explicit input fields with JS `||`
semantics; `expiresAt` falls back to now + `expiresIn` when `expiresIn` is
truthy; empty `input.channels` falls back to the template's list. -/
def buildNotification (templates : List (String × NotificationTemplate))
    (newId : String) (now : Nat) (input : NotificationInput) :
    Except String Notification :=
  match input.template with
  | some tid =>
    if tid = "" then .ok (buildDirect newId now input)
    else
      match lookupTemplate templates tid with
      | none => .error ("Template " ++ tid ++ " not found")
      | some template =>
        let title := resolveField template.defaults.title input.data
        let body := resolveField template.defaults.body input.data
        .ok
          { id := newId
            type := jsOrOpt input.type (some template.type)
            title := jsOrOpt input.title (some title)
            body := jsOrOpt input.body (some body)
            data := input.data
            userId := input.userId
            groupId := input.groupId
            priority := input.priority.getD template.defaults.priority
            category := jsOrOpt input.category template.defaults.category
            status := .pending
            readAt := none
            createdAt := now
            scheduledFor := input.scheduledFor
            expiresAt :=
              match input.expiresAt with
              | some d => some d
              | none =>
                match template.defaults.expiresIn with
                | some k => if k = 0 then none else some (now + k)
                | none => none
            channels := if input.channels.isEmpty then template.defaults.channels else input.channels
            actions := input.actions }
  | none => .ok (buildDirect newId now input)

/-- applyBeforeSendMiddleware: run each registered `beforeSend` hook in
order on the current notification; a falsy return breaks the loop, a
thrown exception propagates. The trace records each hook invocation. -/
def applyBeforeSend : List NotificationMiddleware → Notification →
    List Event × HookResult
  | [], n => ([], .ok n)
  | m :: rest, n =>
    match m.beforeSend with
    | none => applyBeforeSend rest n
    | some f =>
      match f n with
      | .ok n1 =>
        let (t, r) := applyBeforeSend rest n1
        (Event.beforeSendRan m.name :: t, r)
      | .filtered => ([Event.beforeSendRan m.name], .filtered)
      | .threw e => ([Event.beforeSendRan m.name], .threw e)

/-- applyAfterSendMiddleware: run each registered `afterSend` hook in
order; a hook's exception aborts the remaining hooks and propagates. -/
def applyAfterSend : List NotificationMiddleware → Notification →
    List Event × Option String
  | [], _ => ([], none)
  | m :: rest, n =>
    match m.afterSend with
    | none => applyAfterSend rest n
    | some f =>
      match f n with
      | none =>
        let (t, r) := applyAfterSend rest n
        (Event.afterSendRan m.name :: t, r)
      | some e => ([Event.afterSendRan m.name], some e)

/-- applyErrorMiddleware: run each registered `onError` hook in order with
the caught error and the notification; a hook's own exception aborts the
remaining hooks and replaces the propagated error. -/
def applyErrorMw : List NotificationMiddleware → String → Notification →
    List Event × Option String
  | [], _, _ => ([], none)
  | m :: rest, e, n =>
    match m.onError with
    | none => applyErrorMw rest e n
    | some f =>
      match f e n with
      | none =>
        let (t, r) := applyErrorMw rest e n
        (Event.onErrorRan m.name :: t, r)
      | some e2 => ([Event.onErrorRan m.name], some e2)

-- ===========================================================================
-- Delivery Coordinator: sendNow
-- ===========================================================================

/-- One channel's branch of sendNow's fan-out: skip when no transport is
registered or the gate denies; otherwise call `transport.send`, persist the
receipt when the storage supports receipts, and synthesize a `failed`
receipt with attempts = 1 when the transport throws. -/
def channelAttempt (env : Env) (n : Notification)
    (prefs : NotificationPreferences) (channel : ChannelType) :
    List Event × Option DeliveryReceipt :=
  match lookupTransport env.transports channel with
  | none => ([], none)
  | some transport =>
    if !transport.canSend n prefs then ([], none)
    else
      match transport.send n prefs with
      | .ok receipt =>
        (Event.transportSendCalled channel n ::
          (if env.hasSaveReceipt then [Event.saveReceiptCalled receipt] else []),
         some receipt)
      | .error e =>
        let receipt : DeliveryReceipt :=
          { notificationId := n.id
            channel := channel
            status := .failed
            attempts := 1
            lastAttempt := env.now
            nextRetry := none
            error := some e
            metadata := none }
        (Event.transportSendCalled channel n ::
          (if env.hasSaveReceipt then [Event.saveReceiptCalled receipt] else []),
         some receipt)

/-- `allFailed` from sendNow:
`receipts.every(r => !r || r.status === 'failed')`. -/
def allFailed (receipts : List (Option DeliveryReceipt)) : Bool :=
  receipts.all (fun r =>
    match r with
    | none => true
    | some rc => rc.status == .failed)

/-- `anyDelivered` from sendNow:
`receipts.some(r => r && r.status === 'delivered')`. -/
def anyDelivered (receipts : List (Option DeliveryReceipt)) : Bool :=
  receipts.any (fun r =>
    match r with
    | none => false
    | some rc => rc.status == .delivered)

/-- sendNow from the source: load the user's preferences, attempt every
channel, aggregate the collected receipts (`allFailed` / `anyDelivered`)
into the notification's new status, and persist the updated notification.
The returned notification reflects the in-place `status` mutation; the
final component is `some e` when the concluding `storage.save` throws. -/
def sendNow (env : Env) (n : Notification) :
    List Event × Notification × Option String :=
  let prefs := env.prefsOf n.userId
  let results := n.channels.map (channelAttempt env n prefs)
  let trace := (results.map Prod.fst).flatten
  let receipts := results.map Prod.snd
  let newStatus : NotificationStatus :=
    if allFailed receipts then .failed
    else if anyDelivered receipts then .delivered
    else .sent
  let n1 := { n with status := newStatus }
  (trace ++ [Event.saveCalled n1], n1, env.saveResult n1)

/-- The receipts one sendNow pass collects, in channel order (`none` for a
skipped channel). -/
def collectReceipts (env : Env) (n : Notification) :
    List (Option DeliveryReceipt) :=
  (n.channels.map (channelAttempt env n (env.prefsOf n.userId))).map Prod.snd

-- ===========================================================================
-- Dispatch Engine: send
-- ===========================================================================

/-- The message of the error thrown when the beforeSend chain filters the
notification out. -/
def filteredMessage : String := "Notification was filtered out by middleware"

/-- Step 4 of send: enqueue when a queue is configured (delayed by
`scheduledFor - now` when `scheduledFor` is set), otherwise deliver
synchronously through sendNow. Returns the trace, the (possibly
status-mutated) notification, and the thrown error if any. -/
def deliverPhase (env : Env) (n : Notification) :
    List Event × Notification × Option String :=
  if env.hasQueue then
    match n.scheduledFor with
    | some sf =>
      let delay : Int := (sf : Int) - (env.now : Int)
      ([Event.enqueueDelayedCalled n delay], n, env.enqueueDelayedResult n delay)
    | none => ([Event.enqueueCalled n], n, env.enqueueResult n)
  else sendNow env n

/-- The catch block of send: run the onError chain and rethrow — the
original error when every hook completes, the hook's own error when one
throws. -/
def runCatch (env : Env) (e : String) (n : Notification) : List Event × String :=
  let (t, r) := applyErrorMw env.middleware e n
  (t, r.getD e)

/-- The subscriber notifications at the end of a successful send: the
per-user raw-notification callbacks, then the lifecycle-event callbacks
with a `sent` event. -/
def publishEvents (env : Env) (n : Notification) : List Event :=
  (env.subscribers n.userId).map (fun cb => Event.subscriberCbFired n.userId cb n) ++
    (env.eventSubscribers n.userId).map (fun cb => Event.eventCbFired n.userId cb "sent" n)

/-- send from the source: build, run the beforeSend chain (throwing the
filtered error on a falsy chain result), persist, then inside the try
block enqueue-or-deliver, run the afterSend chain and publish to
subscribers; any exception from the try block runs the onError chain and
is rethrown. Exceptions raised before the try block (template lookup, a
beforeSend hook, the filtered signal, the first `storage.save`) propagate
directly. -/
def send (env : Env) (input : NotificationInput) :
    List Event × Except String Notification :=
  match buildNotification env.templates env.newId env.now input with
  | .error e => ([], .error e)
  | .ok built =>
    match applyBeforeSend env.middleware built with
    | (t1, .threw e) => (t1, .error e)
    | (t1, .filtered) => (t1, .error filteredMessage)
    | (t1, .ok n) =>
      match env.saveResult n with
      | some e => (t1 ++ [Event.saveCalled n], .error e)
      | none =>
        match deliverPhase env n with
        | (t2, n1, some e) =>
          let (t3, e1) := runCatch env e n1
          (t1 ++ Event.saveCalled n :: (t2 ++ t3), .error e1)
        | (t2, n1, none) =>
          match applyAfterSend env.middleware n1 with
          | (t3, some e) =>
            let (t4, e1) := runCatch env e n1
            (t1 ++ Event.saveCalled n :: (t2 ++ t3 ++ t4), .error e1)
          | (t3, none) =>
            (t1 ++ Event.saveCalled n :: (t2 ++ t3 ++ publishEvents env n1), .ok n1)

-- ===========================================================================
-- retryFailed and delete
-- ===========================================================================

/-- getDeliveryStatus: the stored receipts when the storage has the
optional `getReceipts` capability, `[]` otherwise. -/
def getDeliveryStatus (env : Env) (notificationId : String) : List DeliveryReceipt :=
  if env.hasGetReceipts then env.receiptsOf notificationId else []

/-- The receipt filter of retryFailed:
`r.status === 'failed' && (!channel || r.channel === channel)`. -/
def retryMatches (channel : Option ChannelType) (r : DeliveryReceipt) : Bool :=
  r.status == .failed &&
    (match channel with
     | none => true
     | some c => r.channel == c)

/-- The for-loop of retryFailed: for each selected receipt with a
registered transport, load the user's preferences and call the transport's
`send`; a transport throw aborts the loop and propagates. -/
def retryLoop (env : Env) (n : Notification) :
    List DeliveryReceipt → List Event × Except String Unit
  | [] => ([], .ok ())
  | r :: rest =>
    match lookupTransport env.transports r.channel with
    | none => retryLoop env n rest
    | some transport =>
      match transport.send n (env.prefsOf n.userId) with
      | .ok _ =>
        let (t, res) := retryLoop env n rest
        (Event.transportSendCalled r.channel n :: t, res)
      | .error e => ([Event.transportSendCalled r.channel n], .error e)

/-- retryFailed from the source: throw "Notification ... not found" for an
unknown id; otherwise re-invoke a transport for every stored receipt whose
status is `failed` and whose channel matches the optional filter. -/
def retryFailed (env : Env) (notificationId : String)
    (channel : Option ChannelType) : List Event × Except String Unit :=
  match env.findById notificationId with
  | none => ([], .error ("Notification " ++ notificationId ++ " not found"))
  | some n =>
    let failedReceipts := (getDeliveryStatus env notificationId).filter (retryMatches channel)
    retryLoop env n failedReceipts

/-- delete from the source: look the notification up, delete it from
storage unconditionally, and when it existed with a status other than
`read`, recompute the owner's unread count and fire the unread-count
callbacks. Returns the trace of collaborator calls. -/
def deleteOp (env : Env) (notificationId : String) : List Event :=
  let notification := env.findById notificationId
  Event.storageDeleteCalled notificationId ::
    (match notification with
     | some n =>
       if n.status != .read then
         (env.unreadSubscribers n.userId).map
           (fun cb => Event.unreadCbFired n.userId cb (env.countUnreadAfter n.userId))
       else []
     | none => [])

/-- The trace the onError chain leaves when every hook completes: one
onErrorRan event per registered middleware that implements onError, in
registration order. -/
def onErrorTrace (mws : List NotificationMiddleware) : List Event :=
  mws.filterMap (fun m =>
    if m.onError.isSome then some (Event.onErrorRan m.name) else none)

/-- Events that represent a delivery attempt: queue enqueues and transport
sends. -/
def isDeliveryEvent : Event → Bool
  | .enqueueCalled _ => true
  | .enqueueDelayedCalled _ _ => true
  | .transportSendCalled _ _ => true
  | _ => false

/-- Scans a trace left to right: true when no delivery event occurs before
the first storage save (or at all). -/
def noDeliveryBeforeSave : List Event → Bool
  | [] => true
  | e :: rest =>
    match e with
    | .saveCalled _ => true
    | .enqueueCalled _ => false
    | .enqueueDelayedCalled _ _ => false
    | .transportSendCalled _ _ => false
    | _ => noDeliveryBeforeSave rest

/-- The argument of the first storage save in a trace. -/
def firstSaveArg : List Event → Option Notification
  | [] => none
  | e :: rest =>
    match e with
    | .saveCalled n => some n
    | _ => firstSaveArg rest

-- ===========================================================================
-- Concrete fixtures used by witnesses and counterexamples
-- ===========================================================================

/-- A channel preference with the overnight quiet-hours window of the
spec's example, 22:00 to 06:00. -/
def qhPref : ChannelPreferences :=
  { enabled := true
    categories := none
    quietHours := some { start := "22:00", «end» := "06:00", timezone := none }
    frequency := none }

/-- Preferences for user u1 with the quiet-hours window on the inapp channel. -/
def prefsQH : NotificationPreferences :=
  { userId := "u1"
    channels := [(.inapp, qhPref)]
    globalMute := false
    updatedAt := none
    data := none }

/-- A plain pending notification for user u1 on the inapp channel, with no
category. -/
def notifBase : Notification :=
  { id := "n1"
    type := some "t"
    title := some "T"
    body := some "B"
    data := none
    userId := "u1"
    groupId := none
    priority := .normal
    category := none
    status := .pending
    readAt := none
    createdAt := 0
    scheduledFor := none
    expiresAt := none
    channels := [.inapp]
    actions := none }

/-- A channel preference restricting the inapp channel to the single
category "billing". -/
def catPref : ChannelPreferences :=
  { enabled := true
    categories := some ["billing"]
    quietHours := none
    frequency := none }

/-- Preferences for user u1 with the "billing" allow-list on inapp. -/
def prefsCat : NotificationPreferences :=
  { userId := "u1"
    channels := [(.inapp, catPref)]
    globalMute := false
    updatedAt := none
    data := none }

/-- Default (empty) preferences, as MemoryStorageAdapter.getPreferences
returns for an unknown user. -/
def defaultPrefs (u : String) : NotificationPreferences :=
  { userId := u
    channels := []
    globalMute := false
    updatedAt := none
    data := none }

/-- A baseline environment: no templates, middleware, transports or queue;
every storage call succeeds; no subscribers. -/
def emptyEnv : Env :=
  { templates := []
    middleware := []
    transports := []
    hasQueue := false
    newId := "id1"
    now := 5
    prefsOf := defaultPrefs
    saveResult := fun _ => none
    enqueueResult := fun _ => none
    enqueueDelayedResult := fun _ _ => none
    hasSaveReceipt := false
    hasGetReceipts := false
    receiptsOf := fun _ => []
    findById := fun _ => none
    countUnreadAfter := fun _ => 0
    subscribers := fun _ => []
    eventSubscribers := fun _ => []
    unreadSubscribers := fun _ => [] }

/-- A direct (template-free) input whose channel list is empty. -/
def emptyChInput : NotificationInput :=
  { type := some "t"
    title := some "T"
    body := some "B"
    userId := "u1"
    groupId := none
    data := none
    priority := none
    category := none
    channels := []
    scheduledFor := none
    expiresAt := none
    actions := none
    template := none }

/-- A transport for channel `c` whose gate always allows and whose send
always returns a receipt with the given status. -/
def constTransport (c : ChannelType) (st : DeliveryStatus) : TransportAdapter :=
  { name := c
    send := fun n _ => .ok
      { notificationId := n.id
        channel := c
        status := st
        attempts := 1
        lastAttempt := 0
        nextRetry := none
        error := none
        metadata := none }
    canSend := fun _ _ => true }

/-- A transport for channel `c` whose send always throws. -/
def throwTransport (c : ChannelType) (msg : String) : TransportAdapter :=
  { name := c
    send := fun _ _ => .error msg
    canSend := fun _ _ => true }

/-- A middleware whose beforeSend hook throws "boom" and which also
registers an onError hook. -/
def mwThrow : NotificationMiddleware :=
  { name := "mwA"
    beforeSend := some (fun _ => .threw "boom")
    afterSend := none
    onError := some (fun _ _ => none) }

/-- A middleware registering only an onError hook. -/
def mwOnErrorOnly : NotificationMiddleware :=
  { name := "mwB"
    beforeSend := none
    afterSend := none
    onError := some (fun _ _ => none) }

/-- A middleware whose beforeSend hook filters every notification out. -/
def mwFilter : NotificationMiddleware :=
  { name := "mwF"
    beforeSend := some (fun _ => .filtered)
    afterSend := none
    onError := none }

/-- A middleware whose beforeSend hook passes the notification through
unchanged. -/
def mwPass : NotificationMiddleware :=
  { name := "mwP"
    beforeSend := some (fun n => .ok n)
    afterSend := none
    onError := none }

/-- An earlier `failed` receipt for notification n1 on the email channel. -/
def receiptFailed : DeliveryReceipt :=
  { notificationId := "n1"
    channel := .email
    status := .failed
    attempts := 1
    lastAttempt := 10
    nextRetry := none
    error := some "smtp down"
    metadata := none }

/-- A later `delivered` receipt for notification n1 on the email channel. -/
def receiptDelivered : DeliveryReceipt :=
  { notificationId := "n1"
    channel := .email
    status := .delivered
    attempts := 1
    lastAttempt := 20
    nextRetry := none
    error := none
    metadata := none }

/-- An environment where notification n1 is stored with one failed and one
later delivered email receipt, and an email transport is registered. -/
def retryEnv : Env :=
  { emptyEnv with
      transports := [constTransport .email .delivered]
      hasGetReceipts := true
      receiptsOf := fun _ => [receiptFailed, receiptDelivered]
      findById := fun _ => some notifBase }

/-- The welcome template of the spec's example: a function-valued title
over the caller's data, default channels inapp and email. -/
def welcomeTpl : NotificationTemplate :=
  { id := "welcome"
    type := "welcome"
    defaults :=
      { title := .fn (fun d => "Welcome " ++ (((d.getD []).lookup "name").getD ""))
        body := .lit "Hello"
        channels := [.inapp, .email]
        priority := .normal
        category := none
        expiresIn := none } }

/-- The input of the spec's welcome example: template "welcome", data
name = Ann, empty channel list. -/
def welcomeInput : NotificationInput :=
  { type := none
    title := none
    body := none
    userId := "u1"
    groupId := none
    data := some [("name", "Ann")]
    priority := none
    category := none
    channels := []
    scheduledFor := none
    expiresAt := none
    actions := none
    template := some "welcome" }

/-- An environment with the welcome template registered. -/
def welcomeEnv : Env :=
  { emptyEnv with templates := [("welcome", welcomeTpl)] }

/-- An environment with an email transport whose send always succeeds with
a delivered receipt, and one raw-notification subscriber. -/
def oneChannelEnv : Env :=
  { emptyEnv with
      transports := [constTransport .email .delivered]
      subscribers := fun u => if u = "u1" then [0] else [] }

/-- A direct input targeting the email channel. -/
def emailInput : NotificationInput :=
  { emptyChInput with channels := [.email] }

/-- A notification targeting three channels. -/
def notifThree : Notification :=
  { notifBase with channels := [.inapp, .email, .push] }

/-- A notification targeting two channels. -/
def notifTwo : Notification :=
  { notifBase with channels := [.email, .push] }

/-- An environment whose transports return delivered, failed, delivered
receipts for the inapp, email and push channels respectively. -/
def deliveredEnv : Env :=
  { emptyEnv with
      transports := [constTransport .inapp .delivered,
        constTransport .email .failed,
        constTransport .push .delivered] }

/-- The failed receipt sendNow synthesizes when the transport for channel
`c` throws `msg` at time 5 for notification n1. -/
def synthReceipt (c : ChannelType) (msg : String) : DeliveryReceipt :=
  { notificationId := "n1"
    channel := c
    status := .failed
    attempts := 1
    lastAttempt := 5
    nextRetry := none
    error := some msg
    metadata := none }

/-- An environment whose email and push transports both throw. -/
def throwingEnv : Env :=
  { emptyEnv with
      transports := [throwTransport .email "email down",
        throwTransport .push "push down"] }

/-- An environment whose chain is a pass-through hook, then a filtering
hook, then a middleware with only an onError hook. -/
def filterChainEnv : Env :=
  { emptyEnv with middleware := [mwPass, mwFilter, mwOnErrorOnly] }

/-- An environment whose single middleware throws in beforeSend and also
registers an onError hook. -/
def throwBeforeEnv : Env :=
  { emptyEnv with middleware := [mwThrow] }

/-- An environment whose storage.save throws, with an onError middleware
registered. -/
def saveFailEnv : Env :=
  { emptyEnv with
      middleware := [mwOnErrorOnly]
      saveResult := fun _ => some "dbfail" }

/-- A middleware whose afterSend hook throws and whose onError hook
completes normally. -/
def mwAfterThrow : NotificationMiddleware :=
  { name := "mwT"
    beforeSend := none
    afterSend := some (fun _ => some "afterboom")
    onError := some (fun _ _ => none) }

/-- An environment with the throwing-afterSend middleware and no
transports. -/
def afterThrowEnv : Env :=
  { emptyEnv with middleware := [mwAfterThrow] }

/-- An environment where every id resolves to the stored pending
notification of user u1, who has one unread-count subscriber; the
post-delete unread count is 4. -/
def delEnv : Env :=
  { emptyEnv with
      findById := fun _ => some notifBase
      countUnreadAfter := fun _ => 4
      unreadSubscribers := fun u => if u = "u1" then [7] else [] }

-- ===========================================================================
-- Theorems
-- ===========================================================================

/-- Splitting a character list at a separator that occurs in neither
prefix: the decomposition is unique. -/
theorem append_sep_split (a1 : List Char) (b1 : List Char) (a2 : List Char)
    (b2 : List Char) (h1 : '_' ∉ a1) (h2 : '_' ∉ a2)
    (h : a1 ++ '_' :: b1 = a2 ++ '_' :: b2) : a1 = a2 ∧ b1 = b2 := by
  induction a1 generalizing a2 with
  | nil =>
    cases a2 with
    | nil => simpa using h
    | cons c cs =>
      simp only [List.nil_append, List.cons_append, List.cons.injEq] at h
      exact absurd (h.1 ▸ List.mem_cons_self c cs) h2
  | cons c cs ih =>
    cases a2 with
    | nil =>
      simp only [List.nil_append, List.cons_append, List.cons.injEq] at h
      exact absurd (h.1 ▸ List.mem_cons_self c cs) h1
    | cons d ds =>
      simp only [List.cons_append, List.cons.injEq] at h
      have hrec := ih ds (fun hm => h1 (List.mem_cons_of_mem c hm))
        (fun hm => h2 (List.mem_cons_of_mem d hm)) h.2
      exact ⟨by rw [h.1, hrec.1], hrec.2⟩

/-- C6: for a configured quiet-hours window whose start and end hours
parse, and with the other gate conditions passing, canSend denies exactly
when the current hour falls in the window: for an overnight window
(start hour > end hour) when the hour is ≥ start or < end, for a same-day
window when it is in [start, end). Only the hour of day is consulted. -/
theorem canSend_quietHours_hourWindow
    (name : ChannelType) (currentHour : Nat) (n : Notification)
    (p : NotificationPreferences) (cp : ChannelPreferences) (qh : QuietHours)
    (sh eh : Nat)
    (hmute : p.globalMute = false)
    (hcp : p.channels.lookup name = some cp)
    (hen : cp.enabled = true)
    (hcat : cp.categories = none)
    (hqh : cp.quietHours = some qh)
    (hs : hourOf qh.start = some sh)
    (he : hourOf qh.«end» = some eh) :
    canSend name currentHour n p = false ↔
      (if eh < sh then sh ≤ currentHour ∨ currentHour < eh
       else sh ≤ currentHour ∧ currentHour < eh) := by
  have hcan : canSend name currentHour n p = false ↔
      inQuietHours currentHour qh = true := by
    simp only [canSend, hmute, hcp, hen, hcat, hqh]
    cases h : inQuietHours currentHour qh <;> simp [h]
  rw [hcan]
  unfold inQuietHours
  rw [hs, he]
  by_cases hcmp : eh < sh
  · simp [hcmp, ge_iff_le]
  · simp [hcmp, ge_iff_le]

/-- C6 witness: the window 22:00–06:00 denies at hours 23 and 2 and
permits at hour 10, via the window characterization. -/
theorem canSend_quietHours_hourWindow_witness :
    canSend .inapp 23 notifBase prefsQH = false ∧
      canSend .inapp 2 notifBase prefsQH = false ∧
      canSend .inapp 10 notifBase prefsQH = true := by
  refine ⟨?_, ?_, ?_⟩
  · exact (canSend_quietHours_hourWindow .inapp 23 notifBase prefsQH qhPref _ 22 6
      rfl rfl rfl rfl rfl (by decide) (by decide)).mpr (by decide)
  · exact (canSend_quietHours_hourWindow .inapp 2 notifBase prefsQH qhPref _ 22 6
      rfl rfl rfl rfl rfl (by decide) (by decide)).mpr (by decide)
  · cases hb : canSend .inapp 10 notifBase prefsQH with
    | false =>
      exact absurd ((canSend_quietHours_hourWindow .inapp 10 notifBase prefsQH qhPref _ 22 6
        rfl rfl rfl rfl rfl (by decide) (by decide)).mp hb) (by decide)
    | true => rfl

/-- C5 counterexample: with the allow-list ["billing"] configured on the
inapp channel and the notification's category absent, canSend returns
true — the claim demands false for an absent category. -/
theorem canSend_absent_category_not_blocked :
    catPref.categories = some ["billing"] ∧ notifBase.category = none ∧
      canSend .inapp 10 notifBase prefsCat = true := by
  decide

/-- C5 amended: when the channel preference carries a categories
allow-list, canSend returns false whenever the notification's category is
present (and truthy) but not in the list; when the category is absent the
allow-list is not consulted, so (absent the other deny conditions)
sending is permitted. -/
theorem canSend_categories_allowList
    (name : ChannelType) (hour : Nat) (n : Notification)
    (p : NotificationPreferences) (cp : ChannelPreferences) (cats : List String)
    (hcp : p.channels.lookup name = some cp)
    (hcats : cp.categories = some cats) :
    (∀ c, n.category = some c → c ≠ "" → c ∉ cats →
        canSend name hour n p = false) ∧
      (n.category = none → p.globalMute = false → cp.enabled = true →
        cp.quietHours = none → canSend name hour n p = true) := by
  constructor
  · intro c hc hne hmem
    cases hm : p.globalMute <;> cases hen : cp.enabled <;>
      simp [canSend, hcp, hcats, hc, hm, hen, hne, hmem]
  · intro hc hm hen hqh
    simp [canSend, hcp, hcats, hc, hm, hen, hqh]

/-- C5 witness for the amended claim: a category outside the allow-list is
denied, an absent category is permitted. -/
theorem canSend_categories_allowList_witness :
    canSend .inapp 10 { notifBase with category := some "social" } prefsCat = false ∧
      canSend .inapp 10 notifBase prefsCat = true := by
  constructor
  · exact (canSend_categories_allowList .inapp 10
      { notifBase with category := some "social" } prefsCat catPref ["billing"]
      rfl rfl).1 "social" rfl (by decide) (by decide)
  · exact (canSend_categories_allowList .inapp 10 notifBase prefsCat catPref ["billing"]
      rfl rfl).2 rfl rfl rfl rfl

/-- C4: with a registered template, each explicitly supplied (truthy)
input field overrides the corresponding template default, and each absent
field falls back to it: title/body (template fields resolved against
input.data, covering function-valued templates), channels (empty list
falls back), priority, category, and expiresAt (falling back to
now + expiresIn when the template carries a truthy expiry offset); naming
an unregistered template makes send fail with the TemplateNotFound
error. -/
theorem buildNotification_template_precedence (env : Env)
    (input : NotificationInput) (tid : String)
    (ht : input.template = some tid) (hne : tid ≠ "") :
    (∀ tpl built, lookupTemplate env.templates tid = some tpl →
      buildNotification env.templates env.newId env.now input = .ok built →
      (∀ t, input.title = some t → t ≠ "" → built.title = some t) ∧
      (input.title = none →
        built.title = some (resolveField tpl.defaults.title input.data)) ∧
      (∀ b, input.body = some b → b ≠ "" → built.body = some b) ∧
      (input.body = none →
        built.body = some (resolveField tpl.defaults.body input.data)) ∧
      (input.channels ≠ [] → built.channels = input.channels) ∧
      (input.channels = [] → built.channels = tpl.defaults.channels) ∧
      (∀ pr, input.priority = some pr → built.priority = pr) ∧
      (input.priority = none → built.priority = tpl.defaults.priority) ∧
      (∀ c, input.category = some c → c ≠ "" → built.category = some c) ∧
      (input.category = none → built.category = tpl.defaults.category) ∧
      (∀ d, input.expiresAt = some d → built.expiresAt = some d) ∧
      (∀ k, input.expiresAt = none → tpl.defaults.expiresIn = some k →
        k ≠ 0 → built.expiresAt = some (env.now + k))) ∧
    (lookupTemplate env.templates tid = none →
      send env input = ([], .error ("Template " ++ tid ++ " not found"))) := by
  constructor
  · intro tpl built hlook hb
    unfold buildNotification at hb
    rw [ht] at hb
    simp only [hne, ite_false, if_neg, hlook] at hb
    injection hb with hb
    subst hb
    refine ⟨?_, ?_, ?_, ?_, ?_, ?_, ?_, ?_, ?_, ?_, ?_, ?_⟩
    · intro t htt htne
      simp [jsOrOpt, htt, htne]
    · intro htt
      simp [jsOrOpt, htt]
    · intro b hbb hbne
      simp [jsOrOpt, hbb, hbne]
    · intro hbb
      simp [jsOrOpt, hbb]
    · intro hch
      simp [List.isEmpty_iff, hch]
    · intro hch
      simp [hch]
    · intro pr hpr
      simp [hpr]
    · intro hpr
      simp [hpr]
    · intro c hcc hcne
      simp [jsOrOpt, hcc, hcne]
    · intro hcc
      simp [jsOrOpt, hcc]
    · intro d hd
      simp [hd]
    · intro k hd hk hkne
      simp [hd, hk, hkne]
  · intro hlook
    unfold send buildNotification
    rw [ht]
    simp only [hne, ite_false, if_neg, hlook]

/-- C4 witness: the welcome example — template "welcome" with a
function-valued title, input data name = Ann and an empty channel list —
builds title "Welcome Ann" with the template's default channels, and with
no template registered send fails with the TemplateNotFound error. -/
theorem buildNotification_template_precedence_witness :
    ((buildNotification welcomeEnv.templates welcomeEnv.newId welcomeEnv.now
        welcomeInput).toOption.map (fun b => (b.title, b.channels)) =
      some (some "Welcome Ann", [ChannelType.inapp, ChannelType.email])) ∧
      send emptyEnv welcomeInput =
        ([], .error "Template welcome not found") := by
  constructor
  · obtain ⟨built, hb⟩ : ∃ b, buildNotification welcomeEnv.templates
        welcomeEnv.newId welcomeEnv.now welcomeInput = Except.ok b := ⟨_, rfl⟩
    have h := (buildNotification_template_precedence welcomeEnv welcomeInput
      "welcome" rfl (by decide)).1 welcomeTpl built rfl hb
    have h1 : built.title = some "Welcome Ann" := by
      rw [h.2.1 rfl]
      decide
    have h2 : built.channels = [ChannelType.inapp, ChannelType.email] := by
      rw [h.2.2.2.2.2.1 rfl]
      decide
    rw [hb]
    simp only [Except.toOption, Option.map_some']
    rw [h1, h2]
  · exact (buildNotification_template_precedence emptyEnv welcomeInput
      "welcome" rfl (by decide)).2 rfl

/-- C8 counterexample: with no template and an empty caller channel list,
send resolves successfully and the returned notification's channels list
is empty — the claim requires a non-empty list on every successful
send. -/
theorem send_empty_channels_resolves_cex :
    (send emptyEnv emptyChInput).2.isOk = true ∧
      (send emptyEnv emptyChInput).2.toOption.map Notification.channels =
        some [] := by
  decide

/-- C8 amended: the built notification's channel list is taken entirely
from the caller's list or entirely from the template default (never a
merge), and is the caller's list whenever that is non-empty; the id is the
generateId draw of the current operation, and two draws of the form
notif_(time)_(rand) with underscore-free components collide only when
both components coincide. The claim as stated fails: send resolves with an
empty channels list when the caller supplies one (see the
counterexample). -/
theorem build_channels_source_and_id (env : Env) (input : NotificationInput)
    (built : Notification)
    (hb : buildNotification env.templates env.newId env.now input = .ok built) :
    (built.channels = input.channels ∨
      ∃ tid tpl, input.template = some tid ∧
        lookupTemplate env.templates tid = some tpl ∧
        built.channels = tpl.defaults.channels) ∧
    (input.channels ≠ [] → built.channels = input.channels) ∧
    built.id = env.newId ∧
    (∀ t1 r1 t2 r2 : String, '_' ∉ t1.data → '_' ∉ r1.data →
      '_' ∉ t2.data → '_' ∉ r2.data →
      generateId t1 r1 = generateId t2 r2 → t1 = t2 ∧ r1 = r2) := by
  have hgen : ∀ t1 r1 t2 r2 : String, '_' ∉ t1.data → '_' ∉ r1.data →
      '_' ∉ t2.data → '_' ∉ r2.data →
      generateId t1 r1 = generateId t2 r2 → t1 = t2 ∧ r1 = r2 := by
    intro t1 r1 t2 r2 ht1 hr1 ht2 hr2 h
    have key : t1.data ++ '_' :: r1.data = t2.data ++ '_' :: r2.data := by
      have hd := congrArg String.data h
      simp only [generateId, String.data_append] at hd
      simp only [List.append_assoc, List.cons_append, List.nil_append,
        List.cons.injEq, eq_self_iff_true, true_and] at hd
      exact hd
    have hsplit := append_sep_split t1.data r1.data t2.data r2.data ht1 ht2 key
    exact ⟨String.ext hsplit.1, String.ext hsplit.2⟩
  unfold buildNotification at hb
  cases htp : input.template with
  | none =>
    rw [htp] at hb
    simp only [Except.ok.injEq] at hb
    subst hb
    exact ⟨Or.inl rfl, fun _ => rfl, rfl, hgen⟩
  | some tid =>
    rw [htp] at hb
    by_cases hne : tid = ""
    · subst hne
      simp only [if_pos, Except.ok.injEq] at hb
      subst hb
      exact ⟨Or.inl rfl, fun _ => rfl, rfl, hgen⟩
    · cases hlook : lookupTemplate env.templates tid with
      | none =>
        simp only [hne, ite_false, if_neg, hlook] at hb
        exact absurd hb (by simp)
      | some tpl =>
        simp only [hne, ite_false, if_neg, hlook, Except.ok.injEq] at hb
        subst hb
        refine ⟨?_, ?_, rfl, hgen⟩
        · by_cases hch : input.channels.isEmpty
          · exact Or.inr ⟨tid, tpl, rfl, hlook, by simp [hch]⟩
          · exact Or.inl (by simp [hch])
        · intro hch
          simp [List.isEmpty_iff, hch]

/-- C8 witness for the amended claim: a template build with an empty
caller list takes exactly the template's channels, a direct build keeps
the caller's non-empty list, and distinct underscore-free draws give
distinct ids. -/
theorem build_channels_source_and_id_witness :
    ((buildNotification emptyEnv.templates emptyEnv.newId emptyEnv.now
        emailInput).toOption.map Notification.channels =
      some [ChannelType.email]) ∧
      generateId "100" "abc" ≠ generateId "101" "abc" := by
  constructor
  · obtain ⟨built, hb⟩ : ∃ b, buildNotification emptyEnv.templates
        emptyEnv.newId emptyEnv.now emailInput = Except.ok b := ⟨_, rfl⟩
    have h := (build_channels_source_and_id emptyEnv emailInput built hb).2.1
      (by decide)
    rw [hb]
    simp only [Except.toOption, Option.map_some']
    rw [h]
    decide
  · intro h
    have := (build_channels_source_and_id emptyEnv emptyChInput
      (buildDirect emptyEnv.newId emptyEnv.now emptyChInput) rfl).2.2.2
      "100" "abc" "101" "abc" (by decide) (by decide) (by decide) (by decide) h
    exact absurd this.1 (by decide)

/-- The Bool test of `allFailed` on one optional receipt, as a
proposition. -/
theorem optionReceipt_failed_iff (r : Option DeliveryReceipt) :
    ((match r with
      | none => true
      | some rc => rc.status == DeliveryStatus.failed) = true) ↔
      (r = none ∨ ∃ rc, r = some rc ∧ rc.status = DeliveryStatus.failed) := by
  cases r <;> simp

/-- The Bool test of `anyDelivered` on one optional receipt, as a
proposition. -/
theorem optionReceipt_delivered_iff (r : Option DeliveryReceipt) :
    ((match r with
      | none => false
      | some rc => rc.status == DeliveryStatus.delivered) = true) ↔
      (∃ rc, r = some rc ∧ rc.status = DeliveryStatus.delivered) := by
  cases r <;> simp

/-- `allFailed` over the collected receipts holds exactly when every
channel contributed no receipt or a failed one. -/
theorem allFailed_iff_chan (env : Env) (n : Notification) :
    allFailed (collectReceipts env n) = true ↔
      ∀ c ∈ n.channels,
        ((channelAttempt env n (env.prefsOf n.userId) c).2 = none ∨
          ∃ rc, (channelAttempt env n (env.prefsOf n.userId) c).2 = some rc ∧
            rc.status = DeliveryStatus.failed) := by
  unfold allFailed collectReceipts
  rw [List.map_map, List.all_eq_true]
  constructor
  · intro h c hc
    exact (optionReceipt_failed_iff _).mp (h _ (List.mem_map_of_mem _ hc))
  · intro h x hx
    obtain ⟨c, hc, rfl⟩ := List.mem_map.mp hx
    exact (optionReceipt_failed_iff _).mpr (h c hc)

/-- `anyDelivered` over the collected receipts holds exactly when some
channel contributed a delivered receipt. -/
theorem anyDelivered_iff_chan (env : Env) (n : Notification) :
    anyDelivered (collectReceipts env n) = true ↔
      ∃ c ∈ n.channels,
        ∃ rc, (channelAttempt env n (env.prefsOf n.userId) c).2 = some rc ∧
          rc.status = DeliveryStatus.delivered := by
  unfold anyDelivered collectReceipts
  rw [List.map_map, List.any_eq_true]
  constructor
  · rintro ⟨x, hx, hpx⟩
    obtain ⟨c, hc, rfl⟩ := List.mem_map.mp hx
    obtain ⟨rc, hrc, hst⟩ := (optionReceipt_delivered_iff _).mp hpx
    exact ⟨c, hc, rc, hrc, hst⟩
  · rintro ⟨c, hc, rc, hrc, hst⟩
    exact ⟨_, List.mem_map_of_mem _ hc,
      (optionReceipt_delivered_iff _).mpr ⟨rc, hrc, hst⟩⟩

/-- C1: after one sendNow pass over a non-empty channel list, the status
written into the notification (and persisted by the trailing save) is
`failed` exactly when every channel either contributed no receipt or a
failed receipt; otherwise it is `delivered` exactly when some channel
contributed a delivered receipt, and `sent` in the remaining cases. A
channel contributes no receipt exactly when its transport is missing or
its gate denies — so when every channel is skipped the notification is
marked `failed`. -/
theorem sendNow_status_aggregation (env : Env) (n : Notification)
    (_hch : n.channels ≠ []) :
    ((sendNow env n).2.1.status = NotificationStatus.failed ↔
      ∀ c ∈ n.channels,
        ((channelAttempt env n (env.prefsOf n.userId) c).2 = none ∨
          ∃ rc, (channelAttempt env n (env.prefsOf n.userId) c).2 = some rc ∧
            rc.status = DeliveryStatus.failed)) ∧
    ((sendNow env n).2.1.status ≠ NotificationStatus.failed →
      ((sendNow env n).2.1.status = NotificationStatus.delivered ↔
        ∃ c ∈ n.channels,
          ∃ rc, (channelAttempt env n (env.prefsOf n.userId) c).2 = some rc ∧
            rc.status = DeliveryStatus.delivered)) ∧
    ((sendNow env n).2.1.status ≠ NotificationStatus.failed →
      ¬(∃ c ∈ n.channels,
          ∃ rc, (channelAttempt env n (env.prefsOf n.userId) c).2 = some rc ∧
            rc.status = DeliveryStatus.delivered) →
      (sendNow env n).2.1.status = NotificationStatus.sent) ∧
    ((sendNow env n).1.getLast? =
      some (Event.saveCalled (sendNow env n).2.1)) ∧
    (∀ c, ((channelAttempt env n (env.prefsOf n.userId) c).2 = none ↔
      (lookupTransport env.transports c = none ∨
        ∃ tr, lookupTransport env.transports c = some tr ∧
          tr.canSend n (env.prefsOf n.userId) = false))) := by
  have hstat : (sendNow env n).2.1.status =
      (if allFailed (collectReceipts env n) then NotificationStatus.failed
       else if anyDelivered (collectReceipts env n) then NotificationStatus.delivered
       else NotificationStatus.sent) := rfl
  refine ⟨?_, ?_, ?_, ?_, ?_⟩
  · rw [hstat, ← allFailed_iff_chan env n]
    cases haf : allFailed (collectReceipts env n) with
    | true => simp
    | false =>
      cases had : anyDelivered (collectReceipts env n) <;> simp
  · intro hne
    rw [hstat] at hne ⊢
    rw [← anyDelivered_iff_chan env n]
    cases haf : allFailed (collectReceipts env n) with
    | true => simp [haf] at hne
    | false =>
      cases had : anyDelivered (collectReceipts env n) <;> simp [haf, had]
  · intro hne hnAD
    rw [hstat] at hne ⊢
    rw [← anyDelivered_iff_chan env n] at hnAD
    cases haf : allFailed (collectReceipts env n) with
    | true => simp [haf] at hne
    | false =>
      cases had : anyDelivered (collectReceipts env n) with
      | true => exact absurd had hnAD
      | false => simp [haf, had]
  · exact List.getLast?_concat _
  · intro c
    cases hlt : lookupTransport env.transports c with
    | none =>
      constructor
      · intro _
        exact Or.inl rfl
      · intro _
        simp [channelAttempt, hlt]
    | some tr =>
      cases hcs : tr.canSend n (env.prefsOf n.userId) with
      | false =>
        constructor
        · intro _
          exact Or.inr ⟨tr, rfl, hcs⟩
        · intro _
          simp [channelAttempt, hlt, hcs]
      | true =>
        constructor
        · intro hnone
          exfalso
          cases hsend : tr.send n (env.prefsOf n.userId) <;>
            simp [channelAttempt, hlt, hcs, hsend] at hnone
        · intro h
          rcases h with h | ⟨tr2, htr2, hcs2⟩
          · exact absurd h (by simp)
          · injection htr2 with htr2
            subst htr2
            rw [hcs] at hcs2
            exact absurd hcs2 (by simp)

/-- C1 witness: transports returning delivered, failed, delivered on
three channels yield final status delivered; two channels whose
transports both throw yield final status failed, via the aggregation
characterization. -/
theorem sendNow_status_aggregation_witness :
    (sendNow deliveredEnv notifThree).2.1.status =
        NotificationStatus.delivered ∧
      (sendNow throwingEnv notifTwo).2.1.status =
        NotificationStatus.failed := by
  constructor
  · decide
  · refine ((sendNow_status_aggregation throwingEnv notifTwo
      (by decide)).1).mpr ?_
    intro c hc
    have hc2 : c ∈ [ChannelType.email, ChannelType.push] := hc
    rw [List.mem_cons, List.mem_cons] at hc2
    rcases hc2 with rfl | hc2
    · exact Or.inr ⟨synthReceipt .email "email down", by decide, rfl⟩
    · rcases hc2 with rfl | hc2
      · exact Or.inr ⟨synthReceipt .push "push down", by decide, rfl⟩
      · exact absurd hc2 (List.not_mem_nil c)

/-- Every event the beforeSend chain emits is a beforeSendRan event. -/
theorem applyBeforeSend_events (mws : List NotificationMiddleware)
    (n : Notification) :
    ∀ e ∈ (applyBeforeSend mws n).1, ∃ nm, e = Event.beforeSendRan nm := by
  induction mws generalizing n with
  | nil => intro e he; simp [applyBeforeSend] at he
  | cons m rest ih =>
    intro e he
    cases hbs : m.beforeSend with
    | none =>
      rw [applyBeforeSend, hbs] at he
      exact ih n e he
    | some f =>
      cases hf : f n with
      | ok n1 =>
        simp only [applyBeforeSend, hbs, hf] at he
        rw [List.mem_cons] at he
        rcases he with he | he
        · exact ⟨m.name, he⟩
        · exact ih n1 e he
      | filtered =>
        simp only [applyBeforeSend, hbs, hf] at he
        rw [List.mem_singleton] at he
        exact ⟨m.name, he⟩
      | threw er =>
        simp only [applyBeforeSend, hbs, hf] at he
        rw [List.mem_singleton] at he
        exact ⟨m.name, he⟩

/-- Splitting the beforeSend chain at a filtering hook: the hooks before
it run and transform, the filtering hook runs, and the hooks after it are
never invoked. -/
theorem applyBeforeSend_append_filtered (pre : List NotificationMiddleware)
    (m : NotificationMiddleware) (post : List NotificationMiddleware)
    (n : Notification) (t1 : List Event) (n1 : Notification)
    (f : Notification → HookResult)
    (hpre : applyBeforeSend pre n = (t1, HookResult.ok n1))
    (hf : m.beforeSend = some f) (hfil : f n1 = HookResult.filtered) :
    applyBeforeSend (pre ++ m :: post) n =
      (t1 ++ [Event.beforeSendRan m.name], HookResult.filtered) := by
  induction pre generalizing n t1 with
  | nil =>
    rw [applyBeforeSend] at hpre
    injection hpre with hp1 hp2
    subst hp1
    injection hp2 with hp2
    subst hp2
    rw [List.nil_append, List.nil_append]
    simp only [applyBeforeSend, hf, hfil]
  | cons m0 pre0 ih =>
    cases hbs : m0.beforeSend with
    | none =>
      rw [applyBeforeSend, hbs] at hpre
      rw [List.cons_append, applyBeforeSend, hbs]
      exact ih n t1 hpre
    | some f0 =>
      cases hf0 : f0 n with
      | ok n2 =>
        simp only [applyBeforeSend, hbs, hf0] at hpre
        rcases hrest : applyBeforeSend pre0 n2 with ⟨t0, r0⟩
        rw [hrest] at hpre
        injection hpre with hp1 hp2
        subst hp2
        rw [List.cons_append]
        simp only [applyBeforeSend, hbs, hf0, ih n2 t0 hrest]
        rw [← hp1, List.cons_append]
      | filtered =>
        simp only [applyBeforeSend, hbs, hf0] at hpre
        injection hpre with hp1 hp2
        exact absurd hp2.symm (by simp)
      | threw er =>
        simp only [applyBeforeSend, hbs, hf0] at hpre
        injection hpre with hp1 hp2
        exact absurd hp2.symm (by simp)

/-- C2: when a beforeSend hook filters the notification out (the hooks
before it completing normally), send aborts with exactly the fixed
filtered error — distinguishable from any delivery failure — and the
whole trace consists of beforeSendRan events only: no storage save, no
enqueue, no transport send, no subscriber publication, and the hooks
after the filtering one never run. -/
theorem send_filtered_aborts (env : Env) (input : NotificationInput)
    (pre post : List NotificationMiddleware) (m : NotificationMiddleware)
    (f : Notification → HookResult) (built n1 : Notification)
    (t1 : List Event)
    (hmw : env.middleware = pre ++ m :: post)
    (hf : m.beforeSend = some f)
    (hbuild : buildNotification env.templates env.newId env.now input = .ok built)
    (hpre : applyBeforeSend pre built = (t1, HookResult.ok n1))
    (hfil : f n1 = HookResult.filtered) :
    send env input = (t1 ++ [Event.beforeSendRan m.name], .error filteredMessage) ∧
      (∀ e ∈ t1 ++ [Event.beforeSendRan m.name], ∃ nm, e = Event.beforeSendRan nm) := by
  have hchain : applyBeforeSend env.middleware built =
      (t1 ++ [Event.beforeSendRan m.name], HookResult.filtered) := by
    rw [hmw]
    exact applyBeforeSend_append_filtered pre m post built t1 n1 f hpre hf hfil
  constructor
  · unfold send
    rw [hbuild]
    simp only [hchain]
  · intro e he
    rcases List.mem_append.mp he with he | he
    · have ht1 : t1 = (applyBeforeSend pre built).1 := by rw [hpre]
      exact applyBeforeSend_events pre built e (ht1 ▸ he)
    · rw [List.mem_singleton] at he
      exact ⟨m.name, he⟩

/-- C2 witness: a pass-through hook followed by a filtering hook — send
returns the filtered error, runs only the two beforeSend hooks, and
performs no other collaborator call. -/
theorem send_filtered_aborts_witness :
    send filterChainEnv emailInput =
      ([Event.beforeSendRan "mwP", Event.beforeSendRan "mwF"],
        .error filteredMessage) := by
  obtain ⟨built, hb⟩ : ∃ b, buildNotification filterChainEnv.templates
      filterChainEnv.newId filterChainEnv.now emailInput = Except.ok b := ⟨_, rfl⟩
  have h := (send_filtered_aborts filterChainEnv emailInput [mwPass]
    [mwOnErrorOnly] mwFilter (fun _ => HookResult.filtered) built built
    [Event.beforeSendRan "mwP"] rfl rfl hb rfl rfl).1
  exact h

/-- When every onError hook completes normally, the onError chain runs
every registered hook in order and rethrows nothing of its own. -/
theorem applyErrorMw_all_ok (mws : List NotificationMiddleware) (e : String)
    (n : Notification)
    (hh : ∀ m ∈ mws, ∀ f, m.onError = some f → f e n = none) :
    applyErrorMw mws e n = (onErrorTrace mws, none) := by
  induction mws with
  | nil => rfl
  | cons m rest ih =>
    have ihrest := ih (fun m2 hm2 f hf => hh m2 (List.mem_cons_of_mem m hm2) f hf)
    cases ho : m.onError with
    | none =>
      simp [applyErrorMw, ho, ihrest, onErrorTrace, List.filterMap_cons]
    | some f =>
      have hfe : f e n = none := hh m (List.mem_cons_self m rest) f ho
      simp [applyErrorMw, ho, hfe, ihrest, onErrorTrace, List.filterMap_cons]

/-- C3 counterexample: a beforeSend hook that throws, and a storage.save
that throws, each propagate the error to the caller without running any
onError hook, although a middleware with an onError hook is registered —
the claim requires the on-error chain to run for the pre-dispatch chain
and for persistence. -/
theorem send_onError_gap_cex :
    (send throwBeforeEnv emailInput =
      ([Event.beforeSendRan "mwA"], .error "boom")) ∧
    (throwBeforeEnv.middleware.any (fun m => m.onError.isSome) = true) ∧
    (send saveFailEnv emailInput =
      ([Event.saveCalled (buildDirect "id1" 5 emailInput)], .error "dbfail")) ∧
    (saveFailEnv.middleware.any (fun m => m.onError.isSome) = true) := by
  refine ⟨by decide, by decide, by decide, by decide⟩

/-- C3 amended: exceptions thrown inside send's try block — the
enqueue-or-deliver step or the afterSend chain — run every registered
middleware's onError hook (provided the hooks themselves complete) and
the same error is rethrown to the caller; exceptions from building
(TemplateNotFound), from a beforeSend hook, from the filtered signal, and
from the first storage.save propagate directly without running the
onError chain (see the counterexample). -/
theorem send_onError_wraps_try_block (env : Env) (input : NotificationInput)
    (built n n1 : Notification) (t1 t2 : List Event) (e : String)
    (hbuild : buildNotification env.templates env.newId env.now input = .ok built)
    (hchain : applyBeforeSend env.middleware built = (t1, HookResult.ok n))
    (hsave : env.saveResult n = none)
    (hthrow : deliverPhase env n = (t2, n1, some e) ∨
      (∃ t2a t2b, deliverPhase env n = (t2a, n1, none) ∧
        applyAfterSend env.middleware n1 = (t2b, some e) ∧ t2 = t2a ++ t2b))
    (hhooks : ∀ m ∈ env.middleware, ∀ f, m.onError = some f → f e n1 = none) :
    send env input =
      (t1 ++ Event.saveCalled n :: (t2 ++ onErrorTrace env.middleware),
        .error e) := by
  have herr := applyErrorMw_all_ok env.middleware e n1 hhooks
  unfold send
  rw [hbuild]
  simp only [hchain, hsave]
  rcases hthrow with hdp | ⟨t2a, t2b, hdp, haft, ht2⟩
  · rw [hdp]
    simp only [runCatch, herr, Option.getD]
  · rw [hdp]
    simp only [haft]
    simp only [runCatch, herr, Option.getD]
    rw [ht2, List.append_assoc]

/-- C3 witness for the amended claim: an afterSend hook that throws makes
send run the registered onError hook and rethrow the same error. -/
theorem send_onError_wraps_try_block_witness :
    send afterThrowEnv emailInput =
      ([Event.saveCalled (buildDirect "id1" 5 emailInput),
        Event.saveCalled { buildDirect "id1" 5 emailInput with
          status := NotificationStatus.failed },
        Event.afterSendRan "mwT", Event.onErrorRan "mwT"],
        .error "afterboom") := by
  have h := send_onError_wraps_try_block afterThrowEnv emailInput
    (buildDirect "id1" 5 emailInput)
    (buildDirect "id1" 5 emailInput)
    { buildDirect "id1" 5 emailInput with status := NotificationStatus.failed }
    [] [Event.saveCalled { buildDirect "id1" 5 emailInput with
      status := NotificationStatus.failed }, Event.afterSendRan "mwT"] "afterboom"
    rfl rfl rfl
    (Or.inr ⟨[Event.saveCalled { buildDirect "id1" 5 emailInput with
        status := NotificationStatus.failed }], [Event.afterSendRan "mwT"],
      by decide, rfl, rfl⟩)
    (by
      intro m hm f hf
      have hm2 : m ∈ [mwAfterThrow] := hm
      rw [List.mem_singleton] at hm2
      subst hm2
      injection hf with hf
      rw [← hf])
  rw [h]
  decide

/-- If every event of a prefix is a beforeSendRan event, then a trace
that continues with a storage save passes the no-delivery-before-save
scan regardless of what follows. -/
theorem noDeliveryBeforeSave_bsPrefix (t : List Event) (n : Notification)
    (rest : List Event)
    (h : ∀ e ∈ t, ∃ nm, e = Event.beforeSendRan nm) :
    noDeliveryBeforeSave (t ++ Event.saveCalled n :: rest) = true := by
  induction t with
  | nil => rfl
  | cons e t0 ih =>
    obtain ⟨nm, rfl⟩ := h e (List.mem_cons_self e t0)
    rw [List.cons_append]
    exact ih (fun e2 he2 => h e2 (List.mem_cons_of_mem _ he2))

/-- If every event of a prefix is a beforeSendRan event, the first save
of the continued trace is the one that follows the prefix. -/
theorem firstSaveArg_bsPrefix (t : List Event) (n : Notification)
    (rest : List Event)
    (h : ∀ e ∈ t, ∃ nm, e = Event.beforeSendRan nm) :
    firstSaveArg (t ++ Event.saveCalled n :: rest) = some n := by
  induction t with
  | nil => rfl
  | cons e t0 ih =>
    obtain ⟨nm, rfl⟩ := h e (List.mem_cons_self e t0)
    rw [List.cons_append]
    exact ih (fun e2 he2 => h e2 (List.mem_cons_of_mem _ he2))

/-- C9: on every send that passes the beforeSend chain, the notification
that the chain produced is saved before any enqueue or transport send:
the trace never contains a delivery event before its first storage save,
and that first save's argument is the (possibly middleware-mutated)
notification. -/
theorem send_persists_before_delivery (env : Env) (input : NotificationInput)
    (built n : Notification) (t1 : List Event)
    (hbuild : buildNotification env.templates env.newId env.now input = .ok built)
    (hchain : applyBeforeSend env.middleware built = (t1, HookResult.ok n)) :
    noDeliveryBeforeSave (send env input).1 = true ∧
      firstSaveArg (send env input).1 = some n := by
  have hev : ∀ e ∈ t1, ∃ nm, e = Event.beforeSendRan nm := by
    intro e he
    have ht1 : t1 = (applyBeforeSend env.middleware built).1 := by rw [hchain]
    exact applyBeforeSend_events env.middleware built e (ht1 ▸ he)
  have hshape : ∃ rest, (send env input).1 = t1 ++ Event.saveCalled n :: rest := by
    unfold send
    rw [hbuild]
    simp only [hchain]
    cases hs : env.saveResult n with
    | some e =>
      exact ⟨[], by simp⟩
    | none =>
      rcases hdp : deliverPhase env n with ⟨t2, n1, derr⟩
      cases derr with
      | some e =>
        rcases hrc : runCatch env e n1 with ⟨t3, e1⟩
        exact ⟨t2 ++ t3, by simp [hrc]⟩
      | none =>
        rcases haft : applyAfterSend env.middleware n1 with ⟨t3, aerr⟩
        cases aerr with
        | some e =>
          rcases hrc : runCatch env e n1 with ⟨t4, e1⟩
          exact ⟨t2 ++ t3 ++ t4, by simp [haft, hrc]⟩
        | none =>
          exact ⟨t2 ++ t3 ++ publishEvents env n1, by simp [haft]⟩
  obtain ⟨rest, hrest⟩ := hshape
  rw [hrest]
  exact ⟨noDeliveryBeforeSave_bsPrefix t1 n rest hev,
    firstSaveArg_bsPrefix t1 n rest hev⟩

/-- C9 witness: a send through a pass-through middleware with one email
transport saves before the transport send. -/
theorem send_persists_before_delivery_witness :
    noDeliveryBeforeSave (send oneChannelEnv emailInput).1 = true ∧
      firstSaveArg (send oneChannelEnv emailInput).1 =
        some (buildDirect "id1" 5 emailInput) := by
  exact send_persists_before_delivery oneChannelEnv emailInput
    (buildDirect "id1" 5 emailInput) (buildDirect "id1" 5 emailInput) []
    rfl rfl

/-- C7 counterexample: notification n1 has a failed email receipt and a
later delivered email receipt (both by list position and by lastAttempt),
yet retryFailed still re-invokes the email transport — the claim forbids
re-invoking a channel whose most recent receipt is delivered. -/
theorem retryFailed_redelivers_despite_recent_delivered_cex :
    (((getDeliveryStatus retryEnv "n1").filter
        (fun r => r.channel == ChannelType.email)).getLast? =
      some receiptDelivered) ∧
      receiptDelivered.status = DeliveryStatus.delivered ∧
      receiptFailed.lastAttempt < receiptDelivered.lastAttempt ∧
      retryFailed retryEnv "n1" none =
        ([Event.transportSendCalled ChannelType.email notifBase],
          .ok ()) := by
  refine ⟨by decide, rfl, by decide, by decide⟩

/-- The retry loop with throw-free transports calls each selected
receipt's transport once, in receipt order, skipping receipts without a
registered transport. -/
theorem retryLoop_all_ok (env : Env) (n : Notification)
    (rs : List DeliveryReceipt)
    (h : ∀ r ∈ rs, ∀ tr, lookupTransport env.transports r.channel = some tr →
      ∃ rc, tr.send n (env.prefsOf n.userId) = Except.ok rc) :
    retryLoop env n rs =
      (rs.filterMap (fun r =>
        if (lookupTransport env.transports r.channel).isSome
        then some (Event.transportSendCalled r.channel n) else none),
       .ok ()) := by
  induction rs with
  | nil => rfl
  | cons r rest ih =>
    have ihr := ih (fun r2 h2 tr htr => h r2 (List.mem_cons_of_mem r h2) tr htr)
    cases hlt : lookupTransport env.transports r.channel with
    | none =>
      simp [retryLoop, hlt, ihr, List.filterMap_cons]
    | some tr =>
      obtain ⟨rc, hsend⟩ := h r (List.mem_cons_self r rest) tr hlt
      simp [retryLoop, hlt, hsend, ihr, List.filterMap_cons]

/-- C7 amended: retryFailed on an unknown id fails with the
NotificationNotFound error; on a stored notification it re-invokes a
transport exactly once per stored receipt whose status is failed and
whose channel matches the optional filter and has a registered transport
— even when the same channel also carries a more recent delivered receipt
(see the counterexample). -/
theorem retryFailed_reinvokes_failed_receipts (env : Env) :
    (∀ id ch, env.findById id = none →
      retryFailed env id ch =
        ([], .error ("Notification " ++ id ++ " not found"))) ∧
    (∀ id ch n, env.findById id = some n →
      (∀ r ∈ (getDeliveryStatus env id).filter (retryMatches ch),
        ∀ tr, lookupTransport env.transports r.channel = some tr →
          ∃ rc, tr.send n (env.prefsOf n.userId) = Except.ok rc) →
      retryFailed env id ch =
        (((getDeliveryStatus env id).filter (retryMatches ch)).filterMap
          (fun r => if (lookupTransport env.transports r.channel).isSome
            then some (Event.transportSendCalled r.channel n) else none),
         .ok ())) := by
  constructor
  · intro id ch hfind
    unfold retryFailed
    rw [hfind]
  · intro id ch n hfind hok
    unfold retryFailed
    rw [hfind]
    exact retryLoop_all_ok env n _ hok

/-- C7 witness for the amended claim: the stored failed email receipt is
retried once through the email transport, and an unknown id fails with
the NotificationNotFound error. -/
theorem retryFailed_reinvokes_failed_receipts_witness :
    retryFailed retryEnv "n2" none =
      ([Event.transportSendCalled ChannelType.email notifBase], .ok ()) ∧
      retryFailed { retryEnv with findById := fun _ => none } "n3" none =
        ([], .error "Notification n3 not found") := by
  constructor
  · have h := (retryFailed_reinvokes_failed_receipts retryEnv).2 "n2" none
      notifBase rfl
      (by
        intro r hr tr htr
        have hr2 : r ∈ [receiptFailed] := hr
        rw [List.mem_singleton] at hr2
        subst hr2
        have htr2 : some (constTransport ChannelType.email
            DeliveryStatus.delivered) = some tr := htr
        injection htr2 with htr2
        subst htr2
        exact ⟨_, rfl⟩)
    exact h.trans (by decide)
  · exact (retryFailed_reinvokes_failed_receipts
      { retryEnv with findById := fun _ => none }).1 "n3" none rfl

/-- C10: delete always performs the storage delete; an unread-count
callback fires exactly when the id names a stored notification whose
status is not read and the owner has unread-count subscribers, and every
fired callback targets the owner and carries the unread count recomputed
after the delete. -/
theorem delete_notifies_unread_only_when_unread (env : Env)
    (notificationId : String) :
    (Event.storageDeleteCalled notificationId ∈ deleteOp env notificationId) ∧
    ((∃ u cb c, Event.unreadCbFired u cb c ∈ deleteOp env notificationId) ↔
      (∃ n, env.findById notificationId = some n ∧
        n.status ≠ NotificationStatus.read ∧
        env.unreadSubscribers n.userId ≠ [])) ∧
    (∀ u cb c, Event.unreadCbFired u cb c ∈ deleteOp env notificationId →
      c = env.countUnreadAfter u ∧
      ∃ n, env.findById notificationId = some n ∧ u = n.userId ∧
        n.status ≠ NotificationStatus.read) := by
  cases hfind : env.findById notificationId with
  | none =>
    have hval : deleteOp env notificationId =
        [Event.storageDeleteCalled notificationId] := by
      simp only [deleteOp, hfind]
    rw [hval]
    refine ⟨List.mem_cons_self _ _, ?_, ?_⟩
    · constructor
      · rintro ⟨u, cb, c, hmem⟩
        simp at hmem
      · rintro ⟨n, hn, _, _⟩
        exact absurd hn (by simp)
    · intro u cb c hmem
      simp at hmem
  | some n =>
    by_cases hread : n.status = NotificationStatus.read
    · have hval : deleteOp env notificationId =
          [Event.storageDeleteCalled notificationId] := by
        simp only [deleteOp, hfind, hread]
        simp
      rw [hval]
      refine ⟨List.mem_cons_self _ _, ?_, ?_⟩
      · constructor
        · rintro ⟨u, cb, c, hmem⟩
          simp at hmem
        · rintro ⟨n2, hn2, hst2, _⟩
          injection hn2 with hn2
          subst hn2
          exact absurd hread hst2
      · intro u cb c hmem
        simp at hmem
    · have hbne : (n.status != NotificationStatus.read) = true :=
        bne_iff_ne.mpr hread
      have hval : deleteOp env notificationId =
          Event.storageDeleteCalled notificationId ::
            (env.unreadSubscribers n.userId).map
              (fun cb => Event.unreadCbFired n.userId cb
                (env.countUnreadAfter n.userId)) := by
        simp only [deleteOp, hfind, hbne, if_true]
      rw [hval]
      refine ⟨List.mem_cons_self _ _, ?_, ?_⟩
      · constructor
        · rintro ⟨u, cb, c, hmem⟩
          rw [List.mem_cons] at hmem
          rcases hmem with hmem | hmem
          · exact absurd hmem (by simp)
          · obtain ⟨cb2, hcb2, _⟩ := List.mem_map.mp hmem
            exact ⟨n, rfl, hread, List.ne_nil_of_mem hcb2⟩
        · rintro ⟨n2, hn2, _, hsubs2⟩
          injection hn2 with hn2
          subst hn2
          obtain ⟨cb, hcb⟩ := List.exists_mem_of_ne_nil _ hsubs2
          exact ⟨n.userId, cb, env.countUnreadAfter n.userId,
            List.mem_cons_of_mem _ (List.mem_map_of_mem _ hcb)⟩
      · intro u cb c hmem
        rw [List.mem_cons] at hmem
        rcases hmem with hmem | hmem
        · exact absurd hmem (by simp)
        · obtain ⟨cb2, hcb2, heq⟩ := List.mem_map.mp hmem
          injection heq with h1 h2 h3
          subst h1
          subst h3
          exact ⟨rfl, n, rfl, rfl, hread⟩

/-- C10 witness: deleting a stored pending notification whose owner has
one unread-count subscriber fires a callback, and the storage delete
happens. -/
theorem delete_notifies_unread_only_when_unread_witness :
    Event.unreadCbFired "u1" 7 4 ∈ deleteOp delEnv "n1" ∧
      Event.storageDeleteCalled "n1" ∈ deleteOp delEnv "n1" := by
  constructor
  · decide
  · exact (delete_notifies_unread_only_when_unread delEnv "n1").1

end NotifyCore
